import Mathlib

/-!
Shallow embedding of the two serverless request handlers of this repository
(api/dev.js and api/update.js) and verification of the frozen claims about
them.

Modelling conventions:
- JavaScript strings are Lean `String`s; where character-level reasoning is
  needed (the model-output parsing of api/update.js) we work on `List Char`.
  JS string indices are UTF-16 code units; all inputs exercised by the
  claims are ASCII, where the two notions agree.
- JSON values are the inductive `JsonVal`.  JSON numbers are kept as their
  source lexeme (no claim depends on numeric value; this avoids floating
  point).
- Outbound `fetch` calls are modelled by oracles: the single OpenAI
  chat-completion call by an `AiResp` value, the GitHub calls by a function
  `GhCall -> GhResp`.  Every function returns, besides its result, the list
  of outbound calls it issued, in order.
- JS falsiness on strings ("" and undefined are falsy) is modelled by
  `jsFalsy : Option String -> Bool`.
- Thrown JS errors are `Except.error` carrying the error message; the
  handler boundary converts them to a 500 response, as the source does.
-/

/-- Character constants for the two braces (used instead of literals). -/
def lbrace : Char := Char.ofNat 123

/-- Closing brace character constant. -/
def rbrace : Char := Char.ofNat 125

/-- JS falsiness of a possibly-absent string: `undefined` and `""` are falsy. -/
def jsFalsy (o : Option String) : Bool := o.getD "" = ""

/-- JS `a || b` for a possibly-absent string `a` and a string default `b`. -/
def jsOrS (a : Option String) (b : String) : String :=
  match a with
  | some s => if s = "" then b else s
  | none => b

/-- JS `x || undefined`: normalises a falsy string to absence. -/
def optNorm (o : Option String) : Option String :=
  if jsFalsy o then none else o

/-- The whitespace characters recognised by JS `String.prototype.trim`
(ASCII subset; the claims only exercise plain spaces). -/
def jsIsWs (c : Char) : Bool :=
  c = ' ' || c = '\t' || c = '\n' || c = '\r' || c.toNat = 11 || c.toNat = 12

/-- JS `s.trim()` on a character list. -/
def jsTrim (s : List Char) : List Char :=
  ((s.dropWhile jsIsWs).reverse.dropWhile jsIsWs).reverse

/-- JSON values.  Numbers keep their source lexeme. -/
inductive JsonVal where
  | null : JsonVal
  | bool (b : Bool) : JsonVal
  | num (lexeme : String) : JsonVal
  | str (s : String) : JsonVal
  | arr (elems : List JsonVal) : JsonVal
  | obj (fields : List (String × JsonVal)) : JsonVal
deriving Repr

/-- Property lookup on a field list; JS keeps the LAST occurrence of a
duplicated key from `JSON.parse`, so the last binding wins. -/
def lookupField : List (String × JsonVal) → String → Option JsonVal
  | [], _ => none
  | (k, v) :: rest, key =>
    match lookupField rest key with
    | some w => some w
    | none => if k = key then some v else none

/-- JS property access `j.k`: `none` models `undefined` (absent field or
non-object receiver). -/
def JsonVal.getField : JsonVal → String → Option JsonVal
  | .obj fs, k => lookupField fs k
  | _, _ => none

/-- Whether a JSON numeric lexeme denotes zero (all mantissa digits 0). -/
def numLexIsZero (lex : String) : Bool :=
  (lex.data.takeWhile (fun c => c ≠ 'e' ∧ c ≠ 'E')).all
    (fun c => c = '0' ∨ c = '-' ∨ c = '.' ∨ c = '+')

/-- JS truthiness of a JSON value: null, false, 0 and "" are falsy;
arrays and objects (including empty ones) are truthy. -/
def jsTruthy : JsonVal → Bool
  | .null => false
  | .bool b => b
  | .num lex => ¬ numLexIsZero lex
  | .str s => s ≠ ""
  | .arr _ => true
  | .obj _ => true

/-- JS truthiness of a possibly-undefined value. -/
def jsTruthyOpt : Option JsonVal → Bool
  | none => false
  | some j => jsTruthy j

/-- Extracts a JSON string value; non-string values map to `none`.
(The source only ever feeds string-valued fields into the positions that
use this; non-string field values are outside every claim.) -/
def jsStrOpt : Option JsonVal → Option String
  | some (.str s) => some s
  | _ => none

/-- Lower-case hex digit, for JSON.stringify control-character escapes. -/
def hexDigitChar (n : Nat) : Char :=
  if n < 10 then Char.ofNat (48 + n) else Char.ofNat (87 + n % 16)

/-- JSON.stringify escaping of one character inside a string literal. -/
def stringifyChar (c : Char) : List Char :=
  if c = '"' then ['\\', '"']
  else if c = '\\' then ['\\', '\\']
  else if c = '\n' then ['\\', 'n']
  else if c = '\r' then ['\\', 'r']
  else if c = '\t' then ['\\', 't']
  else if c.toNat = 8 then ['\\', 'b']
  else if c.toNat = 12 then ['\\', 'f']
  else if c.toNat < 32 then
    ['\\', 'u', '0', '0', hexDigitChar (c.toNat / 16), hexDigitChar (c.toNat % 16)]
  else [c]

/-- JSON.stringify of a string value. -/
def stringifyString (s : String) : String :=
  "\"" ++ (s.data.foldr (fun c acc => stringifyChar c ++ acc) []).asString ++ "\""

mutual

/-- `JSON.stringify` (no spacing), as used for the 502 diagnostic in
api/update.js.  Numbers are re-emitted as their lexeme. -/
def jsonStringify : JsonVal → String
  | .null => "null"
  | .bool true => "true"
  | .bool false => "false"
  | .num lex => lex
  | .str s => stringifyString s
  | .arr xs => "[" ++ stringifyElems xs ++ "]"
  | .obj fs => (String.singleton lbrace) ++ stringifyFields fs ++ (String.singleton rbrace)

/-- Comma-joined serialisation of array elements. -/
def stringifyElems : List JsonVal → String
  | [] => ""
  | [x] => jsonStringify x
  | x :: y :: rest => jsonStringify x ++ "," ++ stringifyElems (y :: rest)

/-- Comma-joined serialisation of object members. -/
def stringifyFields : List (String × JsonVal) → String
  | [] => ""
  | [(k, v)] => stringifyString k ++ ":" ++ jsonStringify v
  | (k, v) :: m :: rest =>
      stringifyString k ++ ":" ++ jsonStringify v ++ "," ++ stringifyFields (m :: rest)

end

/-- JSON whitespace skipping (space, tab, newline, carriage return). -/
def skipWs : List Char → List Char
  | c :: rest =>
    if c = ' ' || c = '\t' || c = '\n' || c = '\r' then skipWs rest else c :: rest
  | [] => []

/-- Hex digit value. -/
def hexVal : Char → Option Nat := fun c =>
  let n := c.toNat
  if 48 ≤ n ∧ n ≤ 57 then some (n - 48)
  else if 97 ≤ n ∧ n ≤ 102 then some (n - 87)
  else if 65 ≤ n ∧ n ≤ 70 then some (n - 55)
  else none

/-- JSON short escape sequences. -/
def escCharVal (e : Char) : Option Char :=
  if e = '"' then some '"'
  else if e = '\\' then some '\\'
  else if e = '/' then some '/'
  else if e = 'b' then some (Char.ofNat 8)
  else if e = 'f' then some (Char.ofNat 12)
  else if e = 'n' then some '\n'
  else if e = 'r' then some '\r'
  else if e = 't' then some '\t'
  else none

/-- Parses the body of a JSON string literal (opening quote already
consumed); returns the decoded characters and the rest of the input.
`\uXXXX` escapes in the surrogate range are rejected (the claims never
exercise them; Lean chars are scalar values). -/
def parseJString : Nat → List Char → Option (List Char × List Char)
  | 0, _ => none
  | _ + 1, [] => none
  | f + 1, c :: rest =>
    if c = '"' then some ([], rest)
    else if c = '\\' then
      match rest with
      | 'u' :: a :: b :: c2 :: d :: rest2 =>
        match hexVal a, hexVal b, hexVal c2, hexVal d with
        | some w, some x, some y, some z =>
          let n := ((w * 16 + x) * 16 + y) * 16 + z
          if 55296 ≤ n ∧ n < 57344 then none
          else (parseJString f rest2).map (fun p => (Char.ofNat n :: p.1, p.2))
        | _, _, _, _ => none
      | e :: rest2 =>
        (escCharVal e).bind (fun ec => (parseJString f rest2).map (fun p => (ec :: p.1, p.2)))
      | [] => none
    else if c.toNat < 32 then none
    else (parseJString f rest).map (fun p => (c :: p.1, p.2))

/-- ASCII digit test. -/
def isDigitC (c : Char) : Bool := 48 ≤ c.toNat ∧ c.toNat ≤ 57

/-- Splits off a maximal run of digits. -/
def spanDigits : List Char → List Char × List Char
  | [] => ([], [])
  | c :: rest =>
    if isDigitC c then
      let (d, r) := spanDigits rest
      (c :: d, r)
    else ([], c :: rest)

/-- JSON integer part: `0` or a nonzero digit followed by digits. -/
def parseIntPart : List Char → Option (List Char × List Char)
  | [] => none
  | c :: rest =>
    if c = '0' then some (['0'], rest)
    else if isDigitC c then
      let (d, r) := spanDigits rest
      some (c :: d, r)
    else none

/-- Optional JSON fraction part. -/
def parseFracPart : List Char → Option (List Char × List Char)
  | '.' :: rest =>
    let (d, r) := spanDigits rest
    if d = [] then none else some ('.' :: d, r)
  | s => some ([], s)

/-- Optional JSON exponent part. -/
def parseExpPart : List Char → Option (List Char × List Char)
  | c :: rest =>
    if c = 'e' ∨ c = 'E' then
      match rest with
      | s :: rest2 =>
        if s = '+' ∨ s = '-' then
          let (d, r) := spanDigits rest2
          if d = [] then none else some (c :: s :: d, r)
        else
          let (d, r) := spanDigits (s :: rest2)
          if d = [] then none else some (c :: d, r)
      | [] => none
    else some ([], c :: rest)
  | [] => some ([], [])

/-- JSON number literal; returns the lexeme and the rest of the input. -/
def parseNumber (s : List Char) : Option (List Char × List Char) :=
  let (neg, s1) := match s with
    | '-' :: r => ((['-'] : List Char), r)
    | _ => (([] : List Char), s)
  (parseIntPart s1).bind (fun ip =>
    (parseFracPart ip.2).bind (fun fp =>
      (parseExpPart fp.2).map (fun ep => (neg ++ ip.1 ++ fp.1 ++ ep.1, ep.2))))

mutual

/-- Fuel-indexed JSON value parser (the grammar of `JSON.parse`). -/
def parseValue : Nat → List Char → Option (JsonVal × List Char)
  | 0, _ => none
  | f + 1, s =>
    match skipWs s with
    | 'n' :: 'u' :: 'l' :: 'l' :: rest => some (.null, rest)
    | 't' :: 'r' :: 'u' :: 'e' :: rest => some (.bool true, rest)
    | 'f' :: 'a' :: 'l' :: 's' :: 'e' :: rest => some (.bool false, rest)
    | '"' :: rest => (parseJString f rest).map (fun p => (.str p.1.asString, p.2))
    | c :: rest =>
      if c = lbrace then parseObjTail f rest
      else if c = '[' then parseArrTail f rest
      else (parseNumber (c :: rest)).map (fun p => (.num p.1.asString, p.2))
    | [] => none

/-- Array continuation, opening bracket already consumed. -/
def parseArrTail : Nat → List Char → Option (JsonVal × List Char)
  | 0, _ => none
  | f + 1, s =>
    match skipWs s with
    | ']' :: rest => some (.arr [], rest)
    | s1 => (parseElems f s1).map (fun p => (.arr p.1, p.2))

/-- One or more comma-separated array elements up to the closing bracket. -/
def parseElems : Nat → List Char → Option (List JsonVal × List Char)
  | 0, _ => none
  | f + 1, s =>
    (parseValue f s).bind (fun p =>
      match skipWs p.2 with
      | ',' :: r => (parseElems f r).map (fun q => (p.1 :: q.1, q.2))
      | ']' :: r => some ([p.1], r)
      | _ => none)

/-- Object continuation, opening brace already consumed. -/
def parseObjTail : Nat → List Char → Option (JsonVal × List Char)
  | 0, _ => none
  | f + 1, s =>
    match skipWs s with
    | c :: rest =>
      if c = rbrace then some (.obj [], rest)
      else (parseMembers f (c :: rest)).map (fun p => (.obj p.1, p.2))
    | [] => none

/-- One or more comma-separated object members up to the closing brace. -/
def parseMembers : Nat → List Char → Option (List (String × JsonVal) × List Char)
  | 0, _ => none
  | f + 1, s =>
    match skipWs s with
    | '"' :: rest =>
      (parseJString f rest).bind (fun kp =>
        match skipWs kp.2 with
        | ':' :: r2 =>
          (parseValue f r2).bind (fun vp =>
            match skipWs vp.2 with
            | ',' :: r4 => (parseMembers f r4).map (fun q => ((kp.1.asString, vp.1) :: q.1, q.2))
            | c :: r4 =>
              if c = rbrace then some ([(kp.1.asString, vp.1)], r4) else none
            | [] => none)
        | _ => none)
    | _ => none

end

/-- `JSON.parse`: parses a whole text as one JSON value, allowing
surrounding whitespace only; `none` models a thrown `SyntaxError`. -/
def parseJson (s : List Char) : Option JsonVal :=
  match parseValue (3 * s.length + 3) s with
  | some (v, rest) => if skipWs rest = [] then some v else none
  | none => none

/-- The regex fallback of api/update.js line 67: the first match of
`/\x7b[\s\S]*\x7d/`, i.e. the substring from the FIRST opening brace to
the LAST closing brace of the text (the quantifier is greedy), when a
closing brace occurs after some opening brace; `none` otherwise. -/
def extractBraces (s : List Char) : Option (List Char) :=
  let t := s.dropWhile (fun c => c ≠ lbrace)
  if t = [] then none
  else
    let u := t.reverse.dropWhile (fun c => c ≠ rbrace)
    if u = [] then none else some u.reverse

/-- The message of the parse failure thrown in api/update.js lines 72/75. -/
def parseFailMsg (text : List Char) : String :=
  "Failed to parse JSON from model output. Raw output: " ++ (text.take 1000).asString

/-- Lines 61-76 of api/update.js: direct `JSON.parse` of the model text,
then the greedy brace-substring fallback, then a diagnostic error carrying
the first 1000 characters of the raw text. -/
def parseModelOutput (text : List Char) : Except String JsonVal :=
  match parseJson text with
  | some v => .ok v
  | none =>
    match extractBraces text with
    | some m =>
      match parseJson m with
      | some v => .ok v
      | none => .error (parseFailMsg text)
    | none => .error (parseFailMsg text)

/-- The base64 alphabet. -/
def base64Alphabet : String :=
  "ABCDEFGHIJKLMNOPQRSTUVWXYZabcdefghijklmnopqrstuvwxyz0123456789+/"

/-- The base64 digit for a 6-bit value. -/
def base64Char (n : Nat) : Char := base64Alphabet.data.getD n 'A'

/-- UTF-8 encoding of one character, as byte values. -/
def utf8BytesChar (c : Char) : List Nat :=
  let n := c.toNat
  if n < 128 then [n]
  else if n < 2048 then [192 + n / 64, 128 + n % 64]
  else if n < 65536 then [224 + n / 4096, 128 + (n / 64) % 64, 128 + n % 64]
  else [240 + n / 262144, 128 + (n / 4096) % 64, 128 + (n / 64) % 64, 128 + n % 64]

/-- UTF-8 encoding of a string, as byte values (`Buffer.from(s, "utf8")`). -/
def utf8Bytes (s : String) : List Nat :=
  s.data.foldr (fun c acc => utf8BytesChar c ++ acc) []

/-- Base64 encoding of a byte list, with padding. -/
def base64Groups : List Nat → List Char
  | [] => []
  | [a] => [base64Char (a / 4), base64Char ((a % 4) * 16), '=', '=']
  | [a, b] => [base64Char (a / 4), base64Char ((a % 4) * 16 + b / 16), base64Char ((b % 16) * 4), '=']
  | a :: b :: c :: rest =>
    base64Char (a / 4) :: base64Char ((a % 4) * 16 + b / 16) ::
      base64Char ((b % 16) * 4 + c / 64) :: base64Char (c % 64) :: base64Groups rest

/-- `Buffer.from(s, "utf8").toString("base64")` of api/update.js line 124. -/
def base64Encode (s : String) : String := (base64Groups (utf8Bytes s)).asString

/-- One outbound GitHub API call, with the request data the source puts in
the URL and body.  (URL encoding of the path is part of transport and not
modelled; the call carries the path itself.) -/
inductive GhCall where
  | repoLookup (owner repo : String)
  | refLookup (owner repo branch : String)
  | createRef (owner repo ref sha : String)
  | getFile (owner repo path branch : String)
  | putFile (owner repo path message content branch : String) (sha : Option String)
  | createPR (owner repo title head base body : String)
deriving Repr

/-- Response of one GitHub call: HTTP failure (`!resp.ok`) with status and
body text, or success with the parsed JSON body. -/
inductive GhResp where
  | failure (status : Nat) (text : String)
  | success (body : JsonVal)

/-- Response of the single OpenAI chat-completions call: a rejected fetch,
an HTTP failure, or success with `choices[0].message.content` (which may
be absent or empty). -/
inductive AiResp where
  | networkError (msg : String)
  | httpError (status : Nat) (text : String)
  | success (content : Option (List Char))

/-- An outbound call of either kind, as recorded in the trace. -/
inductive Call where
  | openaiChat (model systemMsg userPrompt : String)
  | gh (c : GhCall)
deriving Repr

/-- Whether a traced call is a GitHub (source-hosting) call. -/
def Call.isGh : Call → Bool
  | .gh _ => true
  | _ => false

/-- Whether a traced call is an OpenAI (model completion) call. -/
def Call.isOpenai : Call → Bool
  | .openaiChat _ _ _ => true
  | _ => false

/-- The system prompt of api/update.js lines 19-33, verbatim. -/
def updateSystemPrompt : String :=
  "You are an assistant that outputs EXACT JSON only. The user will ask for file changes to a Docsify documentation repo.\nReturn a JSON object with:\n\x7b\n  \"files\": [\n    \x7b\n      \"path\": \"<relative/path/to/file.md>\",\n      \"content\": \"<file contents as text, no extra wrapping>\",\n      \"commitMessage\": \"<short commit message for this file>\"\n    \x7d,\n    ...\n  ],\n  \"prTitle\": \"<one-line PR title>\",\n  \"prBody\": \"<short PR description>\"\n\x7d\nImportant: Return valid JSON and nothing else. Use multiple files when appropriate."

/-- The system instructions of api/dev.js lines 15-21, verbatim. -/
def devSystemInstructions : String :=
  "\nYou are an AI developer assistant for a Docsify documentation site. The user will ask you to produce or update files (Markdown, HTML, or JSON). \n- Output must be plain text with code blocks where appropriate.\n- When giving file contents, wrap them in markdown triple-backticks with a filename header when possible.\n- Do NOT attempt to directly modify the GitHub repo; instead return the exact file contents and a suggested commit message.\n- Keep answers concise and give exact copy-pasteable text.\n"

/-- `callOpenAI` of api/update.js lines 13-77: checks the credential,
issues one completion call, surfaces HTTP errors, rejects absent or empty
content, and parses the text via `parseModelOutput`.  Returns the parsed
plan (or thrown error message) and the outbound calls issued. -/
def callOpenAI (key model : Option String) (ai : AiResp) (prompt : String) :
    Except String JsonVal × List Call :=
  if jsFalsy key then (.error "Missing OPENAI_API_KEY env var", [])
  else
    let c := Call.openaiChat (jsOrS model "gpt-4o-mini") updateSystemPrompt prompt
    match ai with
    | .networkError msg => (.error msg, [c])
    | .httpError status text =>
      (.error ("OpenAI error: " ++ toString status ++ " " ++ text), [c])
    | .success content =>
      let text := content.getD []
      if text = [] then (.error "OpenAI returned no content", [c])
      else (parseModelOutput text, [c])

/-- The per-file loop of api/update.js lines 121-151: for each file entry,
a contents lookup on the new branch (a success yields the blob sha used
for an update; any failure means create), then a contents PUT with the
commit message chain `file.commitMessage || prTitle || "AI edit"` and the
base64-encoded content.  A non-string path or content models the
`Buffer.from` TypeError the source would throw before any call of that
iteration. -/
def commitFiles (gh : GhCall → GhResp) (owner repo newBranch : String)
    (prTitle : Option String) : List JsonVal → Except String Unit × List GhCall
  | [] => (.ok (), [])
  | file :: rest =>
    match jsStrOpt (file.getField "path"), jsStrOpt (file.getField "content") with
    | some path, some content =>
      let message := jsOrS (jsStrOpt (file.getField "commitMessage")) (jsOrS prTitle "AI edit")
      let getCall := GhCall.getFile owner repo path newBranch
      let existingSha :=
        match gh getCall with
        | .success body => jsStrOpt (body.getField "sha")
        | .failure _ _ => none
      let putCall := GhCall.putFile owner repo path message (base64Encode content) newBranch existingSha
      match gh putCall with
      | .success _ =>
        let r := commitFiles gh owner repo newBranch prTitle rest
        (r.1, getCall :: putCall :: r.2)
      | .failure status text =>
        (.error ("Failed to create/update file " ++ path ++ ": " ++ toString status ++ " " ++ text),
         [getCall, putCall])
    | _, _ => (.error "TypeError: invalid file entry", [])

/-- The argument record of `createBranchAndCommitFiles` (api/update.js
line 79).  The token only feeds the request headers and has no effect on
the modelled control flow. -/
structure CommitArgs where
  owner : String
  repo : String
  targetBranch : Option String
  files : List JsonVal
  prTitle : Option String
  prBody : Option String
  githubToken : String

/-- `createBranchAndCommitFiles` of api/update.js lines 79-172: repository
lookup (for the default branch), branch-ref lookup (for the head sha),
branch creation named from the timestamp, the per-file write loop, then
pull-request creation.  Each failed step throws with the step name and the
upstream status and body; a success returns the PR JSON.  A malformed ref
body (no `object.sha` string) models the TypeError the source would throw
there. -/
def createBranchAndCommitFiles (gh : GhCall → GhResp) (a : CommitArgs) (time : Nat) :
    Except String JsonVal × List GhCall :=
  let repoCall := GhCall.repoLookup a.owner a.repo
  match gh repoCall with
  | .failure status text =>
    (.error ("GitHub repo lookup failed: " ++ toString status ++ " " ++ text), [repoCall])
  | .success repoInfo =>
    let defaultBranch := jsOrS a.targetBranch (jsOrS (jsStrOpt (repoInfo.getField "default_branch")) "main")
    let refCall := GhCall.refLookup a.owner a.repo defaultBranch
    match gh refCall with
    | .failure status text =>
      (.error ("Failed to fetch branch ref: " ++ toString status ++ " " ++ text), [repoCall, refCall])
    | .success refJson =>
      match (refJson.getField "object").bind (fun o => jsStrOpt (o.getField "sha")) with
      | none => (.error "TypeError: cannot read sha of branch ref", [repoCall, refCall])
      | some baseSha =>
        let newBranch := "ai-edit-" ++ toString time
        let mkRefCall := GhCall.createRef a.owner a.repo ("refs/heads/" ++ newBranch) baseSha
        match gh mkRefCall with
        | .failure status text =>
          (.error ("Failed to create branch: " ++ toString status ++ " " ++ text),
           [repoCall, refCall, mkRefCall])
        | .success _ =>
          let loop := commitFiles gh a.owner a.repo newBranch a.prTitle a.files
          match loop.1 with
          | .error e => (.error e, repoCall :: refCall :: mkRefCall :: loop.2)
          | .ok _ =>
            let prCall := GhCall.createPR a.owner a.repo (jsOrS a.prTitle "AI suggested edits")
              newBranch defaultBranch (jsOrS a.prBody "AI-generated changes. Please review.")
            match gh prCall with
            | .failure status text =>
              (.error ("Failed to create PR: " ++ toString status ++ " " ++ text),
               repoCall :: refCall :: mkRefCall :: loop.2 ++ [prCall])
            | .success prJson =>
              (.ok prJson, repoCall :: refCall :: mkRefCall :: loop.2 ++ [prCall])

/-- The request body of the change-proposal handler (api/update.js),
after `req.json()`.  `files = some fs` models `body.files` being an array
(`Array.isArray`); `none` models an absent or non-array value.  `approve`
is the result of the source coercion `!!body.approve`. -/
structure UpdateReq where
  method : String
  prompt : Option String
  files : Option (List JsonVal)
  approve : Bool
  prTitle : Option String
  prBody : Option String

/-- The environment variables consumed by api/update.js; `none` models an
unset variable. -/
structure UpdateEnv where
  REPO_OWNER : Option String
  REPO_NAME : Option String
  GITHUB_TOKEN : Option String
  TARGET_BRANCH : Option String
  OPENAI_API_KEY : Option String
  OPENAI_MODEL : Option String

/-- An error response body as built by `ERR` (api/update.js line 11). -/
def errBody (msg : String) : JsonVal := JsonVal.obj [("error", JsonVal.str msg)]

/-- The client-files condition of api/update.js line 192:
`Array.isArray(filesFromClient) && filesFromClient.length > 0`. -/
def hasClientFiles (req : UpdateReq) : Bool :=
  match req.files with
  | some fs => fs.length > 0
  | none => false

/-- api/update.js lines 205-229: the tail of the handler once the plan
`aiResult` is built — the preview return, the write-credential check, the
files-shape check, and the orchestration run.  `tr` is the trace so far. -/
def updateAfterPlan (env : UpdateEnv) (gh : GhCall → GhResp) (time : Nat)
    (req : UpdateReq) (aiResult : JsonVal) (tr : List Call) :
    (Nat × JsonVal) × List Call :=
  if ¬ req.approve then
    ((200, JsonVal.obj [("preview", JsonVal.bool true), ("aiResult", aiResult)]), tr)
  else if jsFalsy env.GITHUB_TOKEN then
    ((500, errBody "Server missing GITHUB_TOKEN env var"), tr)
  else
    match aiResult.getField "files" with
    | some (JsonVal.arr fs) =>
      if fs.length = 0 then ((400, errBody "No files to commit"), tr)
      else
        let run := createBranchAndCommitFiles gh
          { owner := env.REPO_OWNER.getD "", repo := env.REPO_NAME.getD "",
            targetBranch := optNorm env.TARGET_BRANCH, files := fs,
            prTitle := jsStrOpt (aiResult.getField "prTitle"),
            prBody := jsStrOpt (aiResult.getField "prBody"),
            githubToken := env.GITHUB_TOKEN.getD "" } time
        let resp : Nat × JsonVal :=
          match run.1 with
          | .ok prJson => (200, JsonVal.obj [("success", JsonVal.bool true), ("pr", prJson)])
          | .error e => (500, errBody e)
        (resp, tr ++ run.2.map Call.gh)
    | _ => ((400, errBody "No files to commit"), tr)

/-- The change-proposal handler of api/update.js lines 174-234: method
check, environment checks, plan construction (client-supplied files or
one generation call), then `updateAfterPlan`.  Thrown errors become a 500
with the error message, as in the catch block. -/
def updateHandler (env : UpdateEnv) (ai : AiResp) (gh : GhCall → GhResp)
    (time : Nat) (req : UpdateReq) : (Nat × JsonVal) × List Call :=
  if req.method ≠ "POST" then ((405, errBody "Only POST allowed"), [])
  else if jsFalsy env.REPO_OWNER || jsFalsy env.REPO_NAME then
    ((500, errBody "Server misconfigured: REPO_OWNER or REPO_NAME missing"), [])
  else if jsFalsy env.OPENAI_API_KEY then
    ((500, errBody "Server misconfigured: OPENAI_API_KEY missing"), [])
  else if hasClientFiles req then
    let aiResult := JsonVal.obj
      [("files", JsonVal.arr ((req.files.getD []))),
       ("prTitle", JsonVal.str (jsOrS req.prTitle "AI suggested edits")),
       ("prBody", JsonVal.str (jsOrS req.prBody "AI suggested changes"))]
    updateAfterPlan env gh time req aiResult []
  else if jsFalsy req.prompt then ((400, errBody "No prompt provided"), [])
  else
    let gen := callOpenAI env.OPENAI_API_KEY env.OPENAI_MODEL ai (req.prompt.getD "")
    match gen.1 with
    | .error e => ((500, errBody e), gen.2)
    | .ok j =>
      if ¬ jsTruthy j || ¬ jsTruthyOpt (j.getField "files") then
        ((502, errBody ("OpenAI returned no files. Raw: " ++ (jsonStringify j).take 1000)), gen.2)
      else updateAfterPlan env gh time req j gen.2

/-- The request of the assistant handler (api/dev.js). -/
structure DevReq where
  method : String
  prompt : Option String

/-- The assistant handler of api/dev.js: method check, empty-prompt check,
credential check, one completion call; upstream HTTP failures yield a 502
with details, a rejected fetch the generic 500, and a success the first
completion text — or the fixed string when that text is absent or empty. -/
def devHandler (key model : Option String) (ai : AiResp) (req : DevReq) :
    (Nat × JsonVal) × List Call :=
  if req.method ≠ "POST" then ((405, errBody "Only POST allowed"), [])
  else
    let prompt := req.prompt.getD ""
    if prompt = "" || jsTrim prompt.data = [] then ((400, errBody "Empty prompt"), [])
    else if jsFalsy key then ((500, errBody "Server missing OPENAI_API_KEY env var"), [])
    else
      let c := Call.openaiChat (jsOrS model "gpt-4o-mini") devSystemInstructions prompt
      match ai with
      | .networkError _ => ((500, errBody "Internal server error"), [c])
      | .httpError _ text =>
        ((502, JsonVal.obj [("error", JsonVal.str "Upstream error"), ("details", JsonVal.str text)]), [c])
      | .success content =>
        let text := content.getD []
        let reply := if text = [] then "No reply" else text.asString
        ((200, JsonVal.obj [("reply", JsonVal.str reply)]), [c])

/-- Dropping while a predicate holds skips a block on which it holds
everywhere. -/
theorem dropWhile_append_of_all {p : Char → Bool} (a b : List Char)
    (h : ∀ x ∈ a, p x = true) : (a ++ b).dropWhile p = b.dropWhile p := by
  induction a with
  | nil => rfl
  | cons x xs ih =>
    rw [List.cons_append, List.dropWhile_cons, h x (List.mem_cons_self x xs)]
    simp only [if_true]
    exact ih (fun y hy => h y (List.mem_cons_of_mem x hy))

/-- The greedy brace extraction, applied to a JSON object literal
surrounded by prose with no opening brace before it and no closing brace
after it, returns exactly the object literal. -/
theorem extractBraces_wrapped (pre mid suf : List Char)
    (hpre : ∀ c ∈ pre, c ≠ lbrace) (hsuf : ∀ c ∈ suf, c ≠ rbrace) :
    extractBraces (pre ++ (lbrace :: mid ++ [rbrace]) ++ suf) =
      some (lbrace :: mid ++ [rbrace]) := by
  have h1 : (pre ++ (lbrace :: mid ++ [rbrace]) ++ suf).dropWhile (fun c => c ≠ lbrace)
      = (lbrace :: mid ++ [rbrace]) ++ suf := by
    rw [List.append_assoc,
      dropWhile_append_of_all pre _ (fun x hx => by simp [hpre x hx])]
    simp [List.dropWhile_cons]
  have h2 : ((lbrace :: mid ++ [rbrace]) ++ suf).reverse.dropWhile (fun c => c ≠ rbrace)
      = ((lbrace :: mid ++ [rbrace])).reverse := by
    rw [List.reverse_append,
      dropWhile_append_of_all suf.reverse _
        (fun x hx => by simp [hsuf x (List.mem_reverse.mp hx)])]
    simp [List.dropWhile_cons, List.dropWhile_append]
  unfold extractBraces
  rw [h1, if_neg (by simp), h2, if_neg (by simp), List.reverse_reverse]

/-- C2 counterexample: the model response "Here: \x7b"a":1\x7d :)\x7d" is a
valid JSON object wrapped in non-JSON prose (its direct parse fails), yet
the fallback extraction, being greedy up to the LAST closing brace, grabs
"\x7b"a":1\x7d :)\x7d" and fails, so the Edit-Plan Generator throws its
parse error instead of recovering the embedded object. -/
theorem C2_fallback_counterexample :
    parseJson (String.data "\x7b\"a\":1\x7d") = some (JsonVal.obj [("a", JsonVal.num "1")]) ∧
    parseJson (String.data "Here: \x7b\"a\":1\x7d :)\x7d") = none ∧
    parseModelOutput (String.data "Here: \x7b\"a\":1\x7d :)\x7d") =
      Except.error ("Failed to parse JSON from model output. Raw output: Here: \x7b\"a\":1\x7d :)\x7d") := by
  refine ⟨by rfl, by rfl, by rfl⟩

/-- C2 (amended): for a model response consisting of a JSON object literal
wrapped in prose, where the prose BEFORE the object contains no opening
brace and the prose AFTER it contains no closing brace (and the direct
parse of the whole text fails), the fallback extraction recovers exactly
the object literal, and the generator returns the same plan as parsing the
object directly. -/
theorem C2_fallback_amended (pre mid suf : List Char) (v : JsonVal)
    (hpre : ∀ c ∈ pre, c ≠ lbrace) (hsuf : ∀ c ∈ suf, c ≠ rbrace)
    (hobj : parseJson (lbrace :: mid ++ [rbrace]) = some v)
    (hfail : parseJson (pre ++ (lbrace :: mid ++ [rbrace]) ++ suf) = none) :
    parseModelOutput (pre ++ (lbrace :: mid ++ [rbrace]) ++ suf) = Except.ok v := by
  unfold parseModelOutput
  rw [hfail, extractBraces_wrapped pre mid suf hpre hsuf]
  simp only []
  rw [hobj]

/-- Witness for C2 (amended) at a concrete wrapped response. -/
theorem C2_fallback_amended_witness :
    parseModelOutput (String.data "Sure: \x7b\"a\":1\x7d done") =
      Except.ok (JsonVal.obj [("a", JsonVal.num "1")]) := by
  have h := C2_fallback_amended (String.data "Sure: ") (String.data "\"a\":1")
    (String.data " done") (JsonVal.obj [("a", JsonVal.num "1")])
    (by decide) (by decide) (by rfl) (by rfl)
  exact h

/-- C7: whenever the direct parse of the model text fails and the brace
extraction either finds nothing or yields an unparseable substring, the
Edit-Plan Generator fails with exactly the parse error embedding the first
1000 characters of the raw text, and with no other error. -/
theorem C7_parse_error_message (text : List Char)
    (h1 : parseJson text = none)
    (h2 : ∀ m, extractBraces text = some m → parseJson m = none) :
    parseModelOutput text =
      Except.error ("Failed to parse JSON from model output. Raw output: "
        ++ (text.take 1000).asString) := by
  unfold parseModelOutput
  rw [h1]
  cases he : extractBraces text with
  | none => rfl
  | some m => simp [h2 m he, parseFailMsg]

/-- Witness for C7 at a concrete junk response. -/
theorem C7_parse_error_message_witness :
    parseModelOutput (String.data "no json at all") =
      Except.error ("Failed to parse JSON from model output. Raw output: "
        ++ ((String.data "no json at all").take 1000).asString) := by
  exact C7_parse_error_message (String.data "no json at all") rfl
    (fun m hm => by
      rw [show extractBraces (String.data "no json at all") = none from rfl] at hm
      cases hm)

/-- The generation path issues at most its one completion call: its trace
is empty or the single chat call. -/
theorem callOpenAI_calls (key model : Option String) (ai : AiResp) (prompt : String) :
    (callOpenAI key model ai prompt).2 = [] ∨
    (callOpenAI key model ai prompt).2 =
      [Call.openaiChat (jsOrS model "gpt-4o-mini") updateSystemPrompt prompt] := by
  unfold callOpenAI
  split
  · exact Or.inl rfl
  · cases ai with
    | networkError msg => exact Or.inr rfl
    | httpError status text => exact Or.inr rfl
    | success content =>
      simp only []
      split <;> exact Or.inr rfl

/-- The generation path issues no GitHub call. -/
theorem callOpenAI_gh_free (key model : Option String) (ai : AiResp) (prompt : String) :
    ((callOpenAI key model ai prompt).2).filter Call.isGh = [] := by
  rcases callOpenAI_calls key model ai prompt with h | h <;> rw [h] <;> rfl

/-- Mapping GitHub calls into the shared trace never produces a completion
call. -/
theorem filter_isOpenai_map_gh (l : List GhCall) :
    ((l.map Call.gh).filter Call.isOpenai) = [] := by
  induction l with
  | nil => rfl
  | cons x xs ih => simp [Call.isOpenai, ih]

/-- A JSON value with any retrievable field is an object, hence truthy. -/
theorem jsTruthy_of_getField {j : JsonVal} {k : String} {v : JsonVal}
    (h : j.getField k = some v) : jsTruthy j = true := by
  cases j <;> simp [JsonVal.getField, jsTruthy] at h ⊢

/-- api/update.js line 206: with a falsy approve flag the plan tail
returns the preview response and issues nothing beyond the trace so far. -/
theorem updateAfterPlan_not_approve (env : UpdateEnv) (gh : GhCall → GhResp) (time : Nat)
    (req : UpdateReq) (aiResult : JsonVal) (tr : List Call) (h : req.approve = false) :
    updateAfterPlan env gh time req aiResult tr =
      ((200, JsonVal.obj [("preview", JsonVal.bool true), ("aiResult", aiResult)]), tr) := by
  unfold updateAfterPlan
  simp [h]

/-- C4: for every request with a falsy approve flag, the change-proposal
handler issues no source-hosting call at all — no branch creation, file
write, or change-request creation — whatever the environment, oracles and
remaining request fields. -/
theorem C4_preview_no_gh_calls (env : UpdateEnv) (ai : AiResp) (gh : GhCall → GhResp)
    (time : Nat) (req : UpdateReq) (h : req.approve = false) :
    ((updateHandler env ai gh time req).2).filter Call.isGh = [] := by
  have hplan : ∀ a tr, (updateAfterPlan env gh time req a tr).2 = tr :=
    fun a tr => by rw [updateAfterPlan_not_approve env gh time req a tr h]
  unfold updateHandler
  split
  · rfl
  split
  · rfl
  split
  · rfl
  split
  · rw [hplan]; rfl
  split
  · rfl
  · simp only []
    split
    · exact callOpenAI_gh_free _ _ _ _
    split
    · exact callOpenAI_gh_free _ _ _ _
    · rw [hplan]
      exact callOpenAI_gh_free _ _ _ _

/-- Witness for C4 at a concrete preview request. -/
theorem C4_preview_no_gh_calls_witness :
    ((updateHandler ⟨some "o", some "r", some "t", none, some "k", none⟩
      (AiResp.success (some (String.data "\x7b\"files\":[]\x7d")))
      (fun _ => GhResp.failure 500 "never")
      0 ⟨"POST", some "p", none, false, none, none⟩).2).filter Call.isGh = [] :=
  C4_preview_no_gh_calls _ _ _ _ _ rfl

/-- C9: on any POST request — including one carrying a non-empty client
files array, for which no model call would be made — a falsy model-service
credential makes the change-proposal handler answer with a server
configuration error (500) and issue no outbound call, before any plan is
built. -/
theorem C9_missing_model_credential (env : UpdateEnv) (ai : AiResp) (gh : GhCall → GhResp)
    (time : Nat) (req : UpdateReq) (hm : req.method = "POST")
    (hk : jsFalsy env.OPENAI_API_KEY = true) :
    (updateHandler env ai gh time req).1.1 = 500 ∧
    (updateHandler env ai gh time req).2 = [] := by
  unfold updateHandler
  rw [hm]
  by_cases h : (jsFalsy env.REPO_OWNER || jsFalsy env.REPO_NAME) = true
  · simp [h]
  · simp [h, hk]

/-- Witness for C9 at a concrete request carrying client files. -/
theorem C9_missing_model_credential_witness :
    (updateHandler ⟨some "o", some "r", some "t", none, none, none⟩
      (AiResp.networkError "unused") (fun _ => GhResp.failure 500 "never") 0
      ⟨"POST", some "p",
       some [JsonVal.obj [("path", JsonVal.str "a.md"), ("content", JsonVal.str "x")]],
       true, none, none⟩).1.1 = 500 ∧
    (updateHandler ⟨some "o", some "r", some "t", none, none, none⟩
      (AiResp.networkError "unused") (fun _ => GhResp.failure 500 "never") 0
      ⟨"POST", some "p",
       some [JsonVal.obj [("path", JsonVal.str "a.md"), ("content", JsonVal.str "x")]],
       true, none, none⟩).2 = [] :=
  C9_missing_model_credential _ _ _ _ _ rfl rfl

/-- C3 counterexample: the claim fails for the change-proposal handler.
With every credential configured, a whitespace-only prompt " " is truthy
in the source check `if (!prompt)`, so the handler does NOT reject with a
4xx: it issues the outbound completion call and (here) answers 200. -/
theorem C3_empty_prompt_counterexample :
    (updateHandler ⟨some "o", some "r", some "t", none, some "k", none⟩
      (AiResp.success (some (String.data "\x7b\"files\":[]\x7d")))
      (fun _ => GhResp.failure 500 "never") 0
      ⟨"POST", some " ", none, false, none, none⟩).1.1 = 200 ∧
    (updateHandler ⟨some "o", some "r", some "t", none, some "k", none⟩
      (AiResp.success (some (String.data "\x7b\"files\":[]\x7d")))
      (fun _ => GhResp.failure 500 "never") 0
      ⟨"POST", some " ", none, false, none, none⟩).2 =
      [Call.openaiChat "gpt-4o-mini" updateSystemPrompt " "] := by
  exact ⟨rfl, rfl⟩

/-- C3 (amended): the assistant handler rejects every absent, empty or
whitespace-only prompt with a 400 before any outbound call; the
change-proposal generation path rejects only absent or empty (falsy)
prompts with a 400 before any outbound call — a whitespace-only prompt
proceeds to the model call there. -/
theorem C3_empty_prompt_amended :
    (∀ (key model : Option String) (ai : AiResp) (po : Option String),
      jsTrim (po.getD "").data = [] →
      devHandler key model ai ⟨"POST", po⟩ = ((400, errBody "Empty prompt"), [])) ∧
    (∀ (env : UpdateEnv) (ai : AiResp) (gh : GhCall → GhResp) (time : Nat) (req : UpdateReq),
      req.method = "POST" →
      jsFalsy env.REPO_OWNER = false → jsFalsy env.REPO_NAME = false →
      jsFalsy env.OPENAI_API_KEY = false →
      hasClientFiles req = false → jsFalsy req.prompt = true →
      updateHandler env ai gh time req = ((400, errBody "No prompt provided"), [])) := by
  constructor
  · intro key model ai po h
    unfold devHandler
    simp [h]
  · intro env ai gh time req hm ho hr hk hcf hp
    unfold updateHandler
    rw [hm]
    simp [ho, hr, hk, hcf, hp]

/-- Witness for C3 (amended), applying both parts at concrete inputs. -/
theorem C3_empty_prompt_amended_witness :
    devHandler (some "k") none (AiResp.networkError "unused") ⟨"POST", some "   "⟩ =
      ((400, errBody "Empty prompt"), []) ∧
    updateHandler ⟨some "o", some "r", some "t", none, some "k", none⟩
      (AiResp.networkError "unused") (fun _ => GhResp.failure 500 "never") 0
      ⟨"POST", some "", none, false, none, none⟩ =
      ((400, errBody "No prompt provided"), []) :=
  ⟨C3_empty_prompt_amended.1 (some "k") none (AiResp.networkError "unused") (some "   ") rfl,
   C3_empty_prompt_amended.2 _ _ _ 0 _ rfl rfl rfl rfl rfl rfl⟩

/-- C10: a preview request whose generated plan carries `files: []` is
answered 200 with `preview: true` and the plan itself — the post-generation
check only rejects a falsy `files` field, and an empty array is truthy. -/
theorem C10_preview_empty_files (env : UpdateEnv) (ai : AiResp) (gh : GhCall → GhResp)
    (time : Nat) (req : UpdateReq) (j : JsonVal) (tr : List Call)
    (hm : req.method = "POST")
    (ho : jsFalsy env.REPO_OWNER = false) (hr : jsFalsy env.REPO_NAME = false)
    (hk : jsFalsy env.OPENAI_API_KEY = false)
    (hcf : hasClientFiles req = false) (hp : jsFalsy req.prompt = false)
    (hcall : callOpenAI env.OPENAI_API_KEY env.OPENAI_MODEL ai (req.prompt.getD "")
      = (Except.ok j, tr))
    (hfiles : j.getField "files" = some (JsonVal.arr []))
    (happ : req.approve = false) :
    updateHandler env ai gh time req =
      ((200, JsonVal.obj [("preview", JsonVal.bool true), ("aiResult", j)]), tr) := by
  unfold updateHandler
  rw [hm]
  simp only [ho, hr, hk, hcf, hp, Bool.false_eq_true, reduceIte, ne_eq]
  rw [if_neg (by simp)]
  rw [hcall]
  dsimp only
  have hcond : ¬ ((decide (¬ jsTruthy j = true)
      || decide (¬ jsTruthyOpt (j.getField "files") = true)) = true) := by
    have h1 : jsTruthy j = true := jsTruthy_of_getField hfiles
    simp [h1, hfiles, jsTruthyOpt, show jsTruthy (JsonVal.arr []) = true from rfl]
  rw [if_neg hcond]
  exact updateAfterPlan_not_approve env gh time req j tr happ

/-- Witness for C10 at a concrete preview request. -/
theorem C10_preview_empty_files_witness :
    updateHandler ⟨some "o", some "r", some "t", none, some "k", none⟩
      (AiResp.success (some (String.data "\x7b\"files\":[]\x7d")))
      (fun _ => GhResp.failure 500 "never") 0
      ⟨"POST", some "p", none, false, none, none⟩ =
      ((200, JsonVal.obj [("preview", JsonVal.bool true),
        ("aiResult", JsonVal.obj [("files", JsonVal.arr [])])]),
       [Call.openaiChat "gpt-4o-mini" updateSystemPrompt "p"]) :=
  C10_preview_empty_files _ _ _ 0 _ (JsonVal.obj [("files", JsonVal.arr [])])
    [Call.openaiChat "gpt-4o-mini" updateSystemPrompt "p"]
    rfl rfl rfl rfl rfl rfl rfl rfl rfl

/-- The trace of the post-plan tail is the trace so far, possibly extended
by GitHub calls only. -/
theorem updateAfterPlan_trace (env : UpdateEnv) (gh : GhCall → GhResp) (time : Nat)
    (req : UpdateReq) (a : JsonVal) (tr : List Call) :
    (updateAfterPlan env gh time req a tr).2 = tr ∨
    ∃ l : List GhCall, (updateAfterPlan env gh time req a tr).2 = tr ++ l.map Call.gh := by
  unfold updateAfterPlan
  by_cases happ : req.approve = true
  · rw [if_neg (by simp [happ])]
    by_cases htok : jsFalsy env.GITHUB_TOKEN = true
    · rw [if_pos htok]
      exact Or.inl rfl
    · rw [if_neg htok]
      cases hg : a.getField "files" with
      | none => exact Or.inl rfl
      | some v =>
        cases v with
        | null => exact Or.inl rfl
        | bool b => exact Or.inl rfl
        | num lex => exact Or.inl rfl
        | str s => exact Or.inl rfl
        | obj fs => exact Or.inl rfl
        | arr fs =>
          dsimp only
          by_cases hlen : fs.length = 0
          · rw [if_pos hlen]
            exact Or.inl rfl
          · rw [if_neg hlen]
            exact Or.inr ⟨_, rfl⟩
  · rw [if_pos (by simp [happ])]
    exact Or.inl rfl

/-- The prompt field plays no role once the plan is built. -/
theorem updateAfterPlan_prompt_irrel (env : UpdateEnv) (gh : GhCall → GhResp) (time : Nat)
    (req : UpdateReq) (p : Option String) (a : JsonVal) (tr : List Call) :
    updateAfterPlan env gh time { req with prompt := p } a tr =
      updateAfterPlan env gh time req a tr := rfl

/-- Common reduction of the change-proposal handler on the generation
path: once the (post) method, environment, client-files and prompt checks
pass and the generation call returns a parsed plan, the handler is the
files-truthiness check followed by the post-plan tail. -/
theorem updateHandler_gen (env : UpdateEnv) (ai : AiResp) (gh : GhCall → GhResp)
    (time : Nat) (req : UpdateReq) (j : JsonVal) (tr : List Call)
    (hm : req.method = "POST")
    (ho : jsFalsy env.REPO_OWNER = false) (hr : jsFalsy env.REPO_NAME = false)
    (hk : jsFalsy env.OPENAI_API_KEY = false)
    (hcf : hasClientFiles req = false) (hp : jsFalsy req.prompt = false)
    (hcall : callOpenAI env.OPENAI_API_KEY env.OPENAI_MODEL ai (req.prompt.getD "")
      = (Except.ok j, tr)) :
    updateHandler env ai gh time req =
      (if ¬ jsTruthy j || ¬ jsTruthyOpt (j.getField "files") then
        ((502, errBody ("OpenAI returned no files. Raw: " ++ (jsonStringify j).take 1000)), tr)
      else updateAfterPlan env gh time req j tr) := by
  unfold updateHandler
  rw [hm]
  simp only [ho, hr, hk, hcf, hp, Bool.false_eq_true, reduceIte, ne_eq]
  rw [if_neg (by simp)]
  rw [hcall]
  rfl

/-- C5 counterexample: an apply-phase request (approve true, credentials
configured) whose generated plan has an ABSENT files field fails with
status 502 ("OpenAI returned no files"), not with the claimed client input
error (400).  The trace shows only the completion call, no source-hosting
call. -/
theorem C5_empty_plan_counterexample :
    (updateHandler ⟨some "o", some "r", some "t", none, some "k", none⟩
      (AiResp.success (some (String.data "\x7b\"prTitle\":\"T\"\x7d")))
      (fun _ => GhResp.failure 500 "never") 0
      ⟨"POST", some "p", none, true, none, none⟩).1.1 = 502 ∧
    (updateHandler ⟨some "o", some "r", some "t", none, some "k", none⟩
      (AiResp.success (some (String.data "\x7b\"prTitle\":\"T\"\x7d")))
      (fun _ => GhResp.failure 500 "never") 0
      ⟨"POST", some "p", none, true, none, none⟩).2 =
      [Call.openaiChat "gpt-4o-mini" updateSystemPrompt "p"] ∧
    (502 : Nat) ≠ 400 := ⟨rfl, rfl, by decide⟩

/-- C5 (amended): on an apply-phase generation request, a plan whose files
field is an EMPTY ARRAY fails with the client input error 400 ("No files
to commit") and performs no source-hosting call; a plan whose files field
is absent (or otherwise falsy) fails earlier with the 502 upstream error,
likewise performing no source-hosting call. -/
theorem C5_empty_plan_amended (env : UpdateEnv) (ai : AiResp) (gh : GhCall → GhResp)
    (time : Nat) (req : UpdateReq) (j : JsonVal) (tr : List Call)
    (hm : req.method = "POST")
    (ho : jsFalsy env.REPO_OWNER = false) (hr : jsFalsy env.REPO_NAME = false)
    (hk : jsFalsy env.OPENAI_API_KEY = false)
    (hcf : hasClientFiles req = false) (hp : jsFalsy req.prompt = false)
    (hcall : callOpenAI env.OPENAI_API_KEY env.OPENAI_MODEL ai (req.prompt.getD "")
      = (Except.ok j, tr))
    (happ : req.approve = true) :
    (j.getField "files" = some (JsonVal.arr []) → jsFalsy env.GITHUB_TOKEN = false →
      updateHandler env ai gh time req = ((400, errBody "No files to commit"), tr)) ∧
    (jsTruthyOpt (j.getField "files") = false →
      updateHandler env ai gh time req =
        ((502, errBody ("OpenAI returned no files. Raw: " ++ (jsonStringify j).take 1000)), tr)) ∧
    tr.filter Call.isGh = [] := by
  have hred := updateHandler_gen env ai gh time req j tr hm ho hr hk hcf hp hcall
  refine ⟨?_, ?_, ?_⟩
  · intro hfiles htok
    rw [hred]
    have hcond : ¬ ((decide (¬ jsTruthy j = true)
        || decide (¬ jsTruthyOpt (j.getField "files") = true)) = true) := by
      have h1 : jsTruthy j = true := jsTruthy_of_getField hfiles
      simp [h1, hfiles, jsTruthyOpt, show jsTruthy (JsonVal.arr []) = true from rfl]
    rw [if_neg hcond]
    unfold updateAfterPlan
    rw [if_neg (by simp [happ]), if_neg (by simp [htok]), hfiles]
    rfl
  · intro hfalsy
    rw [hred]
    rw [if_pos (by simp [hfalsy])]
  · have := callOpenAI_gh_free env.OPENAI_API_KEY env.OPENAI_MODEL ai (req.prompt.getD "")
    rw [hcall] at this
    exact this

/-- Witness for C5 (amended): both parts at concrete apply-phase inputs. -/
theorem C5_empty_plan_amended_witness :
    updateHandler ⟨some "o", some "r", some "t", none, some "k", none⟩
      (AiResp.success (some (String.data "\x7b\"files\":[]\x7d")))
      (fun _ => GhResp.failure 500 "never") 0
      ⟨"POST", some "p", none, true, none, none⟩ =
      ((400, errBody "No files to commit"),
       [Call.openaiChat "gpt-4o-mini" updateSystemPrompt "p"]) :=
  (C5_empty_plan_amended ⟨some "o", some "r", some "t", none, some "k", none⟩
    (AiResp.success (some (String.data "\x7b\"files\":[]\x7d")))
    (fun _ => GhResp.failure 500 "never") 0
    ⟨"POST", some "p", none, true, none, none⟩
    (JsonVal.obj [("files", JsonVal.arr [])])
    [Call.openaiChat "gpt-4o-mini" updateSystemPrompt "p"]
    rfl rfl rfl rfl rfl rfl rfl rfl).1 rfl rfl

/-- C8: when the request carries a non-empty files array, the
change-proposal handler builds the plan from that array as-is — no
completion call is ever issued, the prompt field is ignored — and fills
the title and description with `prTitle`/`prBody` or their fixed defaults;
in the preview phase it returns exactly that plan. -/
theorem C8_client_files_plan (env : UpdateEnv) (ai : AiResp) (gh : GhCall → GhResp)
    (time : Nat) (req : UpdateReq) (fs : List JsonVal)
    (hm : req.method = "POST")
    (ho : jsFalsy env.REPO_OWNER = false) (hr : jsFalsy env.REPO_NAME = false)
    (hk : jsFalsy env.OPENAI_API_KEY = false)
    (hf : req.files = some fs) (hne : fs ≠ []) :
    ((updateHandler env ai gh time req).2).filter Call.isOpenai = [] ∧
    (∀ p, updateHandler env ai gh time { req with prompt := p } =
      updateHandler env ai gh time req) ∧
    (req.approve = false →
      updateHandler env ai gh time req =
        ((200, JsonVal.obj [("preview", JsonVal.bool true),
          ("aiResult", JsonVal.obj
            [("files", JsonVal.arr fs),
             ("prTitle", JsonVal.str (jsOrS req.prTitle "AI suggested edits")),
             ("prBody", JsonVal.str (jsOrS req.prBody "AI suggested changes"))])]), [])) := by
  have hcf : hasClientFiles req = true := by
    simp [hasClientFiles, hf, List.length_pos.mpr hne]
  have hred : updateHandler env ai gh time req =
      updateAfterPlan env gh time req (JsonVal.obj
        [("files", JsonVal.arr fs),
         ("prTitle", JsonVal.str (jsOrS req.prTitle "AI suggested edits")),
         ("prBody", JsonVal.str (jsOrS req.prBody "AI suggested changes"))]) [] := by
    unfold updateHandler
    rw [hm]
    simp only [ho, hr, hk, hcf, Bool.false_eq_true, reduceIte, ne_eq]
    rw [if_neg (by simp)]
    rw [hf]
    rfl
  refine ⟨?_, ?_, ?_⟩
  · rw [hred]
    rcases updateAfterPlan_trace env gh time req (JsonVal.obj
        [("files", JsonVal.arr fs),
         ("prTitle", JsonVal.str (jsOrS req.prTitle "AI suggested edits")),
         ("prBody", JsonVal.str (jsOrS req.prBody "AI suggested changes"))]) [] with h | ⟨l, h⟩
    · rw [h]; rfl
    · rw [h]
      simp [filter_isOpenai_map_gh]
  · intro p
    have hcf2 : hasClientFiles { req with prompt := p } = true := hcf
    have hred2 : updateHandler env ai gh time { req with prompt := p } =
        updateAfterPlan env gh time { req with prompt := p } (JsonVal.obj
          [("files", JsonVal.arr fs),
           ("prTitle", JsonVal.str (jsOrS req.prTitle "AI suggested edits")),
           ("prBody", JsonVal.str (jsOrS req.prBody "AI suggested changes"))]) [] := by
      unfold updateHandler
      dsimp only
      rw [if_neg (by simp [hm])]
      simp only [ho, hr, hk, hcf2, Bool.false_eq_true, reduceIte]
      rw [hf]
      rfl
    rw [hred2, hred, updateAfterPlan_prompt_irrel]
  · intro happ
    rw [hred]
    exact updateAfterPlan_not_approve env gh time req _ [] happ

/-- The single-file plan entry used by claims C1 and C8. -/
def fileA : JsonVal := JsonVal.obj
  [("path", JsonVal.str "docs/a.md"), ("content", JsonVal.str "X"),
   ("commitMessage", JsonVal.str "add a")]

/-- Witness for C8 at a concrete preview request with one client file. -/
theorem C8_client_files_plan_witness :
    updateHandler ⟨some "o", some "r", some "t", none, some "k", none⟩
      (AiResp.networkError "unused") (fun _ => GhResp.failure 500 "never") 0
      ⟨"POST", some "ignored", some [fileA], false, none, none⟩ =
      ((200, JsonVal.obj [("preview", JsonVal.bool true),
        ("aiResult", JsonVal.obj
          [("files", JsonVal.arr [fileA]),
           ("prTitle", JsonVal.str "AI suggested edits"),
           ("prBody", JsonVal.str "AI suggested changes")])]), []) :=
  (C8_client_files_plan ⟨some "o", some "r", some "t", none, some "k", none⟩
    (AiResp.networkError "unused") (fun _ => GhResp.failure 500 "never") 0
    ⟨"POST", some "ignored", some [fileA], false, none, none⟩ [fileA]
    rfl rfl rfl rfl rfl (by simp)).2.2 rfl

/-- C6 counterexample: the claim fails in two ways.  With the valid prompt
"hi" and a successful upstream response whose first completion text is the
EMPTY string, the handler replies with the fixed string "No reply", not
with the empty text verbatim.  And the non-empty, whitespace-only prompt
"   " is rejected with 400 before any call, not answered 200. -/
theorem C6_reply_counterexample :
    devHandler (some "k") none (AiResp.success (some [])) ⟨"POST", some "hi"⟩ =
      ((200, JsonVal.obj [("reply", JsonVal.str "No reply")]),
       [Call.openaiChat "gpt-4o-mini" devSystemInstructions "hi"]) ∧
    ("No reply" : String) ≠ ([] : List Char).asString ∧
    (devHandler (some "k") none (AiResp.success (some (String.data "ok")))
      ⟨"POST", some "   "⟩).1.1 = 400 :=
  ⟨rfl, by decide, rfl⟩

/-- C6 (amended): for every prompt with non-whitespace content and every
successful upstream completion whose first message text is non-empty, the
assistant handler returns 200 carrying that text verbatim as the reply,
having issued exactly the one completion call. -/
theorem C6_reply_amended (key : String) (hkey : key ≠ "") (model : Option String)
    (p : String) (hp : jsTrim p.data ≠ []) (c : List Char) (hc : c ≠ []) :
    devHandler (some key) model (AiResp.success (some c)) ⟨"POST", some p⟩ =
      ((200, JsonVal.obj [("reply", JsonVal.str c.asString)]),
       [Call.openaiChat (jsOrS model "gpt-4o-mini") devSystemInstructions p]) := by
  have hp0 : ¬ (p = "") := by
    intro h
    apply hp
    rw [h]
    rfl
  unfold devHandler
  rw [if_neg (by simp)]
  dsimp only
  rw [if_neg (by simp [hp0, hp])]
  rw [if_neg (by simp [jsFalsy, hkey])]
  rw [if_neg (by simp [hc])]
  rfl

/-- Witness for C6 (amended) at a concrete prompt and completion. -/
theorem C6_reply_amended_witness :
    devHandler (some "k") none (AiResp.success (some (String.data "hello"))) ⟨"POST", some "hi"⟩ =
      ((200, JsonVal.obj [("reply", JsonVal.str "hello")]),
       [Call.openaiChat "gpt-4o-mini" devSystemInstructions "hi"]) :=
  C6_reply_amended "k" (by decide) none "hi" (by decide) (String.data "hello") (by decide)

/-- The orchestration arguments of claim C1: the plan with the single
`docs/a.md` entry, title "T", no body. -/
def commitArgsA (owner repo : String) (tb : Option String) (tok : String) : CommitArgs :=
  ⟨owner, repo, tb, [fileA], some "T", none, tok⟩

/-- C1: applying the single-file plan (path `docs/a.md`, content `X`,
commit message `add a`, title `T`), the orchestration resolves the base
branch, creates exactly one branch at the base head commit, issues exactly
one file write at `docs/a.md` carrying the (base64-transported) content
`X` with message `add a`, and opens exactly one change request titled `T`
from the new branch onto the base — the trace is exactly those six calls
in order; and if either base-branch lookup step fails, the run stops with
only the lookups in the trace, so no branch creation, file write or
change-request creation is performed. -/
theorem C1_apply_orchestration (owner repo : String) (tb : Option String)
    (tok : String) (time : Nat) :
    (∀ (gh : GhCall → GhResp) (b1 refBody b3 b5 prOut : JsonVal) (db sha : String)
      (gst : Nat) (gtx : String),
      gh (GhCall.repoLookup owner repo) = GhResp.success b1 →
      jsOrS tb (jsOrS (jsStrOpt (b1.getField "default_branch")) "main") = db →
      gh (GhCall.refLookup owner repo db) = GhResp.success refBody →
      (refBody.getField "object").bind (fun o => jsStrOpt (o.getField "sha")) = some sha →
      gh (GhCall.createRef owner repo ("refs/heads/" ++ ("ai-edit-" ++ toString time)) sha)
        = GhResp.success b3 →
      gh (GhCall.getFile owner repo "docs/a.md" ("ai-edit-" ++ toString time))
        = GhResp.failure gst gtx →
      gh (GhCall.putFile owner repo "docs/a.md" "add a" (base64Encode "X")
        ("ai-edit-" ++ toString time) none) = GhResp.success b5 →
      gh (GhCall.createPR owner repo "T" ("ai-edit-" ++ toString time) db
        "AI-generated changes. Please review.") = GhResp.success prOut →
      createBranchAndCommitFiles gh (commitArgsA owner repo tb tok) time =
        (Except.ok prOut,
         [GhCall.repoLookup owner repo,
          GhCall.refLookup owner repo db,
          GhCall.createRef owner repo ("refs/heads/" ++ ("ai-edit-" ++ toString time)) sha,
          GhCall.getFile owner repo "docs/a.md" ("ai-edit-" ++ toString time),
          GhCall.putFile owner repo "docs/a.md" "add a" (base64Encode "X")
            ("ai-edit-" ++ toString time) none,
          GhCall.createPR owner repo "T" ("ai-edit-" ++ toString time) db
            "AI-generated changes. Please review."])) ∧
    (∀ (gh : GhCall → GhResp) (st : Nat) (tx : String),
      gh (GhCall.repoLookup owner repo) = GhResp.failure st tx →
      createBranchAndCommitFiles gh (commitArgsA owner repo tb tok) time =
        (Except.error ("GitHub repo lookup failed: " ++ toString st ++ " " ++ tx),
         [GhCall.repoLookup owner repo])) ∧
    (∀ (gh : GhCall → GhResp) (b1 : JsonVal) (db : String) (st : Nat) (tx : String),
      gh (GhCall.repoLookup owner repo) = GhResp.success b1 →
      jsOrS tb (jsOrS (jsStrOpt (b1.getField "default_branch")) "main") = db →
      gh (GhCall.refLookup owner repo db) = GhResp.failure st tx →
      createBranchAndCommitFiles gh (commitArgsA owner repo tb tok) time =
        (Except.error ("Failed to fetch branch ref: " ++ toString st ++ " " ++ tx),
         [GhCall.repoLookup owner repo, GhCall.refLookup owner repo db])) := by
  refine ⟨?_, ?_, ?_⟩
  · intro gh b1 refBody b3 b5 prOut db sha gst gtx h1 hdb h2 hsha h3 h4 h5 h6
    unfold createBranchAndCommitFiles commitArgsA
    dsimp only
    rw [h1]
    dsimp only
    rw [hdb, h2]
    dsimp only
    rw [hsha]
    dsimp only
    rw [h3]
    dsimp only
    unfold commitFiles
    rw [show jsStrOpt (fileA.getField "path") = some "docs/a.md" from rfl,
      show jsStrOpt (fileA.getField "content") = some "X" from rfl]
    dsimp only
    rw [h4]
    dsimp only
    rw [show jsOrS (jsStrOpt (fileA.getField "commitMessage")) (jsOrS (some "T") "AI edit")
      = "add a" from rfl]
    rw [h5]
    dsimp only
    rw [show jsOrS (some "T") "AI suggested edits" = "T" from rfl,
      show jsOrS none "AI-generated changes. Please review."
        = "AI-generated changes. Please review." from rfl]
    rw [h6]
    rw [show commitFiles gh owner repo ("ai-edit-" ++ toString time) (some "T") []
      = (Except.ok (), []) from rfl]
    simp
  · intro gh st tx h1
    unfold createBranchAndCommitFiles commitArgsA
    dsimp only
    rw [h1]
  · intro gh b1 db st tx h1 hdb h2
    unfold createBranchAndCommitFiles commitArgsA
    dsimp only
    rw [h1]
    dsimp only
    rw [hdb, h2]

/-- Concrete GitHub oracle for the C1 witness: well-formed success bodies
for every step; the contents lookup reports the file absent. -/
def ghOracleA : GhCall → GhResp
  | .repoLookup _ _ => .success (JsonVal.obj [("default_branch", JsonVal.str "main")])
  | .refLookup _ _ _ =>
    .success (JsonVal.obj [("object", JsonVal.obj [("sha", JsonVal.str "abc123")])])
  | .createRef _ _ _ _ => .success JsonVal.null
  | .getFile _ _ _ _ => .failure 404 "Not Found"
  | .putFile _ _ _ _ _ _ _ => .success JsonVal.null
  | .createPR _ _ _ _ _ _ => .success (JsonVal.obj [("number", JsonVal.num "1")])

/-- Witness for C1 at the concrete oracle `ghOracleA` and timestamp 5. -/
theorem C1_apply_orchestration_witness :
    createBranchAndCommitFiles ghOracleA (commitArgsA "o" "r" none "tok") 5 =
      (Except.ok (JsonVal.obj [("number", JsonVal.num "1")]),
       [GhCall.repoLookup "o" "r",
        GhCall.refLookup "o" "r" "main",
        GhCall.createRef "o" "r" ("refs/heads/" ++ ("ai-edit-" ++ toString 5)) "abc123",
        GhCall.getFile "o" "r" "docs/a.md" ("ai-edit-" ++ toString 5),
        GhCall.putFile "o" "r" "docs/a.md" "add a" (base64Encode "X")
          ("ai-edit-" ++ toString 5) none,
        GhCall.createPR "o" "r" "T" ("ai-edit-" ++ toString 5) "main"
          "AI-generated changes. Please review."]) ∧
    base64Encode "X" = "WA==" := by
  refine ⟨?_, rfl⟩
  exact (C1_apply_orchestration "o" "r" none "tok" 5).1 ghOracleA
    (JsonVal.obj [("default_branch", JsonVal.str "main")])
    (JsonVal.obj [("object", JsonVal.obj [("sha", JsonVal.str "abc123")])])
    JsonVal.null JsonVal.null (JsonVal.obj [("number", JsonVal.num "1")])
    "main" "abc123" 404 "Not Found" rfl rfl rfl rfl rfl rfl rfl rfl
